import Mathlib

/-!
Shallow embedding of the module-orchestration core of the engineering
automation agent (src/core_agent.py): the module registry, the workflow
runner, the execution summary, and the build coordinator
(`execute_comprehensive_build`), together with theorems settling the
frozen claims about them.

Modelling conventions:
* Python dictionaries returned by a module's `execute` are modelled by
  `PyDict`, keeping exactly the keys the core inspects defensively
  (`.get('success', True)` and `.get('error', ...)`).
* Wall-clock timing (`datetime.now()` differences) is abstracted into a
  per-module `elapsed` quantity recorded in the `ExecutionResult`.
* Exceptions raised by Python code are modelled by `Except String`,
  carrying the exception's string representation.
* `format_exception_details(e)` (src/utils.py line 134) builds a dict whose
  `message` field is `str(e)`; we model the stored error detail by that
  string.
* Logging calls and the on-disk report written by
  `collect_and_report_exceptions` (which catches its own file errors,
  src/utils.py lines 180-185) have no effect on the modelled state and are
  omitted.
-/

namespace Jeeves

/-- The slice of a Python dict returned by a module's `execute` that the
core inspects: `r.get('success', True)` and `r.get('error', default)`.
All other payload is opaque to the core. -/
structure PyDict where
  success : Option Bool := none
  error : Option String := none
deriving DecidableEq, Repr

/-- Configuration fields of `AgentConfig` (src/core_agent.py lines 60-141)
that the orchestration core reads, with their source defaults. -/
structure AgentConfig where
  project_name : String := ""
  pre_commit_checks : Bool := true
  exception_reporting_enabled : Bool := true
  fail_build_on_exceptions : Bool := false
  auto_create_bug_tickets : Bool := true
  test_types : List String :=
    ["unit", "functional", "integration", "regression", "performance",
     "security", "end_to_end"]
  comprehensive_documentation : Bool := true
  auto_add_comments : Bool := true
deriving DecidableEq, Repr

/-- An agent module (the `AgentModule` contract): a configuration
validation predicate and an `execute` operation that either returns a
result dict or raises.  `execute` receives the configured test types, the
one piece of shared configuration the core mutates around module calls;
`elapsed` abstracts the wall-clock seconds one invocation takes. -/
structure AgentModule where
  validate_config : Bool
  execute : List String → Except String PyDict
  elapsed : Nat := 0

/-- `ExecutionResult` (src/core_agent.py lines 174-192). -/
structure ExecutionResult where
  success : Bool
  module_name : String
  execution_time : Nat
  data : PyDict := {}
  errors : List String := []
  warnings : List String := []
deriving DecidableEq, Repr

/-- One entry of the session exception collector.  In the source each entry
also carries a timestamp, which the core never reads; the `error` field
holds the error string (for exception records, `str(e)`). -/
structure ExceptionRecord where
  component : String
  error : String
deriving DecidableEq, Repr

/-- The mutable state of an `EngineeringAutomationAgent` instance that the
orchestration core reads and writes: configuration, the module registry
(`self.modules`, a Python dict from names to modules), the session-long
results list (`self.results`) and the exception collector
(`self.exceptions_collector`). -/
structure AgentState where
  config : AgentConfig
  modules : List (String × AgentModule) := []
  results : List ExecutionResult := []
  exceptions_collector : List ExceptionRecord := []

/-- Python-dict insertion: overwrite the first binding of the key in place,
else append at the end (insertion order preserved, as in a Python dict). -/
def dictInsert {α : Type} (xs : List (String × α)) (k : String) (v : α) :
    List (String × α) :=
  match xs with
  | [] => [(k, v)]
  | (k', v') :: rest =>
      if k' = k then (k, v) :: rest else (k', v') :: dictInsert rest k v

/-- `register_module` (src/core_agent.py lines 261-267): insert the module
under the name when `validate_config()` returns true, otherwise log an
error and leave the registry unchanged.  Never raises. -/
def register_module (s : AgentState) (name : String) (m : AgentModule) :
    AgentState :=
  if m.validate_config then
    { s with modules := dictInsert s.modules name m }
  else s

/-- Wrap a name in single quotes, as the source's f-string
`f"Module .{module_name}. not found"` does (quote written as `\x27`). -/
def quoted (s : String) : String := "\x27" ++ s ++ "\x27"

/-- `execute_module` (src/core_agent.py lines 269-313): look the module up;
if absent, return early (line 274) with a failed result carrying a "not
found" error — this early return never reaches the append at line 312, so
a not-found result is NOT added to the session results list and the agent
state is unchanged.  Otherwise invoke `execute`, wrapping a normal return
into a successful result and a raised exception into a failed result
carrying `str(e)`; in both of those branches the result is appended to the
session results list. -/
def execute_module (s : AgentState) (module_name : String) :
    AgentState × ExecutionResult :=
  match s.modules.lookup module_name with
  | none =>
      let r : ExecutionResult :=
        { success := false, module_name := module_name, execution_time := 0,
          errors := ["Module " ++ quoted module_name ++ " not found"] }
      (s, r)
  | some m =>
      match m.execute s.config.test_types with
      | Except.ok d =>
          let r : ExecutionResult :=
            { success := true, module_name := module_name,
              execution_time := m.elapsed, data := d }
          ({ s with results := s.results ++ [r] }, r)
      | Except.error e =>
          let r : ExecutionResult :=
            { success := false, module_name := module_name,
              execution_time := m.elapsed,
              errors := ["Module execution failed: " ++ e] }
          ({ s with results := s.results ++ [r] }, r)

/-- `execute_workflow` (src/core_agent.py lines 315-329): run the named
modules in list order, appending each result; stop at the first failed
result and return the partial list gathered so far. -/
def execute_workflow (s : AgentState) (workflow : List String) :
    AgentState × List ExecutionResult :=
  match workflow with
  | [] => (s, [])
  | name :: rest =>
      let p := execute_module s name
      if p.2.success then
        let q := execute_workflow p.1 rest
        (q.1, p.2 :: q.2)
      else (p.1, [p.2])

/-- The summary record produced by `get_execution_summary`
(src/core_agent.py lines 331-344); the success rate is modelled exactly
over the rationals. -/
structure ExecutionSummary where
  total_modules : Nat
  successful_modules : Nat
  failed_modules : Nat
  success_rate : Rat
  total_execution_time : Nat
deriving DecidableEq, Repr

/-- `get_execution_summary` (src/core_agent.py lines 331-344). -/
def get_execution_summary (s : AgentState) : ExecutionSummary :=
  let total := s.results.length
  let successful := (s.results.filter (fun r => r.success)).length
  { total_modules := total
    successful_modules := successful
    failed_modules := total - successful
    success_rate := if total > 0 then (successful : Rat) / (total : Rat) * 100 else 0
    total_execution_time := (s.results.map (fun r => r.execution_time)).sum }

/-- The test-suite part of `_run_pre_commit_checks`
(src/core_agent.py lines 503-516): save the configured test types, narrow
them to `["unit"]`, invoke the test-suite module, then restore.  When
`execute` raises, control jumps to the phase-level handler (line 518)
before the restore on line 508 runs, so the narrowed `["unit"]` persists
and a `pre_commit_checks` exception record is appended.  On a normal
return the original test types are restored and a failure flag in the
returned dict yields a `pre_commit_tests` record. -/
def runPreCommitTests (s : AgentState) : AgentState :=
  match s.modules.lookup "test_suite" with
  | none => s
  | some m =>
      let original := s.config.test_types
      match m.execute ["unit"] with
      | Except.error e =>
          { s with
            config := { s.config with test_types := ["unit"] },
            exceptions_collector := s.exceptions_collector ++
              [{ component := "pre_commit_checks", error := e }] }
      | Except.ok r =>
          let s1 := { s with config := { s.config with test_types := original } }
          if r.success.getD true then s1
          else
            { s1 with exceptions_collector := s1.exceptions_collector ++
                [{ component := "pre_commit_tests",
                   error := r.error.getD "Pre-commit tests failed" }] }

/-- `_run_pre_commit_checks` (src/core_agent.py lines 490-529): run the
code-review module (a failure flag in its returned dict adds a
`pre_commit_code_review` record), then the test-suite module narrowed to
unit tests.  Any exception raised inside is caught by the phase handler
and appended as a `pre_commit_checks` record; nothing propagates. -/
def runPreCommit (s : AgentState) : AgentState :=
  match s.modules.lookup "code_review" with
  | none => runPreCommitTests s
  | some m =>
      match m.execute s.config.test_types with
      | Except.error e =>
          { s with exceptions_collector := s.exceptions_collector ++
              [{ component := "pre_commit_checks", error := e }] }
      | Except.ok r =>
          if r.success.getD true then runPreCommitTests s
          else
            runPreCommitTests
              { s with exceptions_collector := s.exceptions_collector ++
                  [{ component := "pre_commit_code_review",
                     error := r.error.getD "Code review failed" }] }

/-- `self.build_context` (src/core_agent.py lines 361-371) plus the keys
the build adds along the way. -/
structure BuildContext where
  build_id : String
  project : String
  success : Bool := true
  exceptions : List ExceptionRecord := []
  test_results : List ExecutionResult := []
  code_review_results : List ExecutionResult := []
  artifacts : List String := []
  error : Option String := none
  jira_integration : Option PyDict := none
  confluence_test_results : Option PyDict := none
  confluence_build_report : Option PyDict := none
  github_commit : Option PyDict := none

/-- Modelled from the spec: `execute_all_workflows` is called at
src/core_agent.py line 382 but defined nowhere under src/; the spec treats
it as an external collaborator concept — "execute all configured workflows
... effectively running every named workflow definition available", each
through the Workflow Runner, returning the sub-results keyed by workflow
name.  `ws` is the list of named workflow definitions available. -/
def execute_all_workflows (s : AgentState)
    (ws : List (String × List String)) :
    AgentState × List (String × List ExecutionResult) :=
  match ws with
  | [] => (s, [])
  | (n, w) :: rest =>
      let p := execute_workflow s w
      let q := execute_all_workflows p.1 rest
      (q.1, (n, p.2) :: q.2)

/-- The behaviour of the external collaborators one comprehensive build
consults: the named workflow definitions run by `execute_all_workflows`
(and, when that call itself raises — as it does in the shipped code, where
the method is missing and the call raises `AttributeError` — the raised
message), and the outcomes of the jira / confluence / github integration
calls and of the post-build actions, each of which may raise. -/
structure BuildCollab where
  workflows : List (String × List String) := []
  all_workflows_raise : Option String := none
  jira_integrate : Except String PyDict := Except.ok {}
  confluence_post : Except String PyDict := Except.ok {}
  confluence_report : Except String PyDict := Except.ok {}
  github_commit : Except String PyDict := Except.ok {}
  github_artifacts : Except String (List String) := Except.ok []
  modified_files : List String := []
  post_build_raise : Option String := none

/-- The state threaded through one `execute_comprehensive_build` call: the
agent state, the build context under construction, and the exception (if
any) currently propagating inside the method's top-level `try`. -/
structure St where
  agent : AgentState
  bc : BuildContext
  exn : Option String := none

/-- Run a step of the try body only when no exception is propagating. -/
def onOk (f : St → St) (st : St) : St :=
  match st.exn with
  | some _ => st
  | none => f st

/-- Build-context initialisation (src/core_agent.py lines 361-371). -/
def initSt (s : AgentState) (build_id : String) : St :=
  { agent := s, bc := { build_id := build_id, project := s.config.project_name } }

/-- Pre-commit phase (src/core_agent.py lines 377-378), gated on
`config.pre_commit_checks`; `_run_pre_commit_checks` never raises. -/
def stepPreCommit : St → St :=
  onOk fun st =>
    if st.agent.config.pre_commit_checks then
      { st with agent := runPreCommit st.agent }
    else st

/-- Main workflow phase (src/core_agent.py lines 381-386): call
`execute_all_workflows` (which may raise) and store the `test_suite` and
`code_review` sub-results into the build context. -/
def stepWorkflows (c : BuildCollab) : St → St :=
  onOk fun st =>
    match c.all_workflows_raise with
    | some e => { st with exn := some e }
    | none =>
        let p := execute_all_workflows st.agent c.workflows
        { st with
          agent := p.1,
          bc := { st.bc with
                  test_results := (p.2.lookup "test_suite").getD [],
                  code_review_results := (p.2.lookup "code_review").getD [] } }

/-- Failure check (src/core_agent.py lines 389-390): any unsuccessful
result in the session-long results list fails the build. -/
def stepFailCheck : St → St :=
  onOk fun st =>
    if st.agent.results.any (fun r => !r.success) then
      { st with bc := { st.bc with success := false } }
    else st

/-- src/core_agent.py line 393: `build_context['exceptions'] =
self.exceptions_collector` (in Python this aliases the collector object). -/
def stepCopyExceptions : St → St :=
  onOk fun st =>
    { st with bc := { st.bc with exceptions := st.agent.exceptions_collector } }

/-- Exception reporting (src/core_agent.py lines 396-406): only when
reporting is enabled and the collector is non-empty is the report produced
and — if `fail_build_on_exceptions` is set — the build failed. -/
def stepReport : St → St :=
  onOk fun st =>
    if st.agent.config.exception_reporting_enabled &&
        !st.agent.exceptions_collector.isEmpty then
      if st.agent.config.fail_build_on_exceptions then
        { st with bc := { st.bc with success := false } }
      else st
    else st

/-- JIRA integration (src/core_agent.py lines 409-411), attempted only for
a registered jira module on a still-successful build; the collaborator
call may raise. -/
def stepJira (c : BuildCollab) : St → St :=
  onOk fun st =>
    if (st.agent.modules.lookup "jira").isSome && st.bc.success then
      match c.jira_integrate with
      | Except.ok d => { st with bc := { st.bc with jira_integration := some d } }
      | Except.error e => { st with exn := some e }
    else st

/-- Confluence posting (src/core_agent.py lines 414-426), attempted only
for a registered confluence module when test results are non-empty (Python
truthiness of `build_context.get('test_results')`); either collaborator
call may raise. -/
def stepConfluence (c : BuildCollab) : St → St :=
  onOk fun st =>
    if (st.agent.modules.lookup "confluence").isSome &&
        !st.bc.test_results.isEmpty then
      match c.confluence_post with
      | Except.error e => { st with exn := some e }
      | Except.ok d =>
          match c.confluence_report with
          | Except.error e =>
              { st with
                bc := { st.bc with confluence_test_results := some d },
                exn := some e }
          | Except.ok d2 =>
              { st with bc := { st.bc with
                  confluence_test_results := some d,
                  confluence_build_report := some d2 } }
    else st

/-- GitHub commit (src/core_agent.py lines 429-439): for a registered
github module on a still-successful build, with a non-empty modified-files
list (`_get_modified_files` catches its own errors and returns a list);
the commit call may raise. -/
def stepGithubCommit (c : BuildCollab) : St → St :=
  onOk fun st =>
    if (st.agent.modules.lookup "github").isSome && st.bc.success then
      if !c.modified_files.isEmpty then
        match c.github_commit with
        | Except.ok d => { st with bc := { st.bc with github_commit := some d } }
        | Except.error e => { st with exn := some e }
      else st
    else st

/-- GitHub artifact storage (src/core_agent.py lines 442-451): stores the
returned `stored_files` into `build_context['artifacts']`; may raise. -/
def stepGithubArtifacts (c : BuildCollab) : St → St :=
  onOk fun st =>
    if (st.agent.modules.lookup "github").isSome &&
        !st.bc.test_results.isEmpty then
      match c.github_artifacts with
      | Except.ok files => { st with bc := { st.bc with artifacts := files } }
      | Except.error e => { st with exn := some e }
    else st

/-- `_run_post_build_actions` (src/core_agent.py lines 531-550): runs the
documentation / code-annotation actions behind its own handler, so a raise
inside only appends a `post_build_actions` record; nothing propagates and
the build success flag is untouched. -/
def stepPostBuild (c : BuildCollab) : St → St :=
  onOk fun st =>
    if st.agent.config.comprehensive_documentation ||
        (st.agent.config.auto_add_comments &&
         (st.agent.modules.lookup "github").isSome) then
      match c.post_build_raise with
      | some e =>
          { st with agent := { st.agent with
              exceptions_collector := st.agent.exceptions_collector ++
                [{ component := "post_build_actions", error := e }] } }
      | none => st
    else st

/-- The steps of the `try` body of `execute_comprehensive_build`
(src/core_agent.py lines 375-464), in program order. -/
def buildTrySteps (c : BuildCollab) : List (St → St) :=
  [stepPreCommit, stepWorkflows c, stepFailCheck, stepCopyExceptions,
   stepReport, stepJira c, stepConfluence c, stepGithubCommit c,
   stepGithubArtifacts c, stepPostBuild c]

/-- The whole `try` body: fold the steps over the initial state; a raised
exception skips the remaining steps. -/
def buildTryBody (c : BuildCollab) (st : St) : St :=
  (buildTrySteps c).foldl (fun a f => f a) st

/-- The `except` boundary of `execute_comprehensive_build`
(src/core_agent.py lines 466-488): a propagating exception is recorded as
a `build_execution` exception record, the build is failed, the error and
collector are stored into the context, a best-effort bug ticket is
attempted (its own failure only logged), and the context is returned. -/
def stepHandler (st : St) : St :=
  match st.exn with
  | none => st
  | some e =>
      let coll := st.agent.exceptions_collector ++
        [{ component := "build_execution", error := e }]
      { agent := { st.agent with exceptions_collector := coll }
        bc := { st.bc with
                success := false
                error := some e
                exceptions := coll }
        exn := none }

/-- All context-mutating steps of one build call, handler included. -/
def buildAllSteps (c : BuildCollab) : List (St → St) :=
  buildTrySteps c ++ [stepHandler]

/-- `execute_comprehensive_build` (src/core_agent.py lines 357-488): run
the try body, then the exception boundary, and return the agent state and
the build context.  Because `build_context['exceptions']` aliases the
collector object in Python (line 393 and line 474 store the list itself),
the returned context's `exceptions` always equals the final collector. -/
def execute_comprehensive_build (c : BuildCollab) (s : AgentState)
    (build_id : String) : AgentState × BuildContext :=
  let st := stepHandler (buildTryBody c (initSt s build_id))
  (st.agent, { st.bc with exceptions := st.agent.exceptions_collector })

/-! ### Concrete modules and states used by witnesses and counterexamples -/

/-- A module whose `execute` always returns an empty dict. -/
def modOk : AgentModule :=
  { validate_config := true, execute := fun _ => Except.ok {}, elapsed := 1 }

/-- A module whose `execute` always raises `"boom"`. -/
def modRaise : AgentModule :=
  { validate_config := true, execute := fun _ => Except.error "boom", elapsed := 2 }

/-- A module whose `execute` returns a dict flagged unsuccessful. -/
def modSoftFail : AgentModule :=
  { validate_config := true,
    execute := fun _ =>
      Except.ok { success := some false, error := some "lint failed" } }

/-- A module whose configuration validation fails. -/
def modBadConfig : AgentModule :=
  { validate_config := false, execute := fun _ => Except.ok {} }

/-- An agent with a healthy module `a` and a raising module `b`. -/
def stA : AgentState :=
  { config := {}, modules := [("a", modOk), ("b", modRaise)] }

/-- An agent that has executed nothing yet. -/
def stEmpty : AgentState := { config := {} }

/-- An agent whose registered test-suite module raises. -/
def stC8 : AgentState := { config := {}, modules := [("test_suite", modRaise)] }

/-- An agent whose registered test-suite module returns normally. -/
def stTSok : AgentState := { config := {}, modules := [("test_suite", modOk)] }

/-- Collaborator behaviour of the shipped code: the `execute_all_workflows`
call itself raises (the method does not exist). -/
def cAttrErr : BuildCollab :=
  { all_workflows_raise := some "AttributeError: no attribute" }

/-- Named workflow definitions for a concrete build. -/
def cWf : BuildCollab :=
  { workflows := [("test_suite", ["a"]), ("code_review", ["b"])] }

/-- An agent whose code-review module reports a failure dict, with
exception reporting disabled but `fail_build_on_exceptions` set. -/
def sC1 : AgentState :=
  { config := { exception_reporting_enabled := false,
                fail_build_on_exceptions := true },
    modules := [("code_review", modSoftFail)] }

/-- A threaded state whose build context is already failed. -/
def stFalse : St :=
  { agent := stEmpty,
    bc := { build_id := "b", project := "", success := false } }

/-! ### Helper lemmas -/

theorem lookup_dictInsert {α : Type} (l : List (String × α)) (k k' : String)
    (v : α) :
    (dictInsert l k v).lookup k' = if k' = k then some v else l.lookup k' := by
  induction l with
  | nil =>
      cases hb : k' == k
      · simp [dictInsert, List.lookup, hb]
        simp_all [beq_iff_eq, beq_eq_false_iff_ne]
      · simp [dictInsert, List.lookup, hb]
        simp_all [beq_iff_eq, beq_eq_false_iff_ne]
  | cons p rest ih =>
      obtain ⟨a, b⟩ := p
      by_cases hak : a = k
      · subst hak
        cases hb : k' == a <;>
          simp [dictInsert, List.lookup, hb] <;>
          simp_all [beq_iff_eq, beq_eq_false_iff_ne]
      · cases hb : k' == a
        · simp [dictInsert, List.lookup, hak, hb, ih]
          try simp_all [beq_iff_eq, beq_eq_false_iff_ne]
        · simp [dictInsert, List.lookup, hak, hb, ih]
          try simp_all [beq_iff_eq, beq_eq_false_iff_ne]

theorem execute_module_notfound (s : AgentState) (n : String)
    (h : s.modules.lookup n = none) :
    execute_module s n =
      (s, { success := false, module_name := n, execution_time := 0,
            errors := ["Module " ++ quoted n ++ " not found"] }) := by
  unfold execute_module
  rw [h]

theorem execute_module_found_fst (s : AgentState) (n : String)
    (m : AgentModule) (h : s.modules.lookup n = some m) :
    (execute_module s n).1 =
      { s with results := s.results ++ [(execute_module s n).2] } := by
  unfold execute_module
  rw [h]
  dsimp only
  rcases he : m.execute s.config.test_types with e | d <;> rfl

theorem execute_module_pres (s : AgentState) (n : String) :
    (execute_module s n).1.config = s.config ∧
    (execute_module s n).1.modules = s.modules ∧
    (execute_module s n).1.exceptions_collector =
      s.exceptions_collector := by
  unfold execute_module
  rcases hm : s.modules.lookup n with _ | m
  · exact ⟨rfl, rfl, rfl⟩
  · dsimp only
    rcases he : m.execute s.config.test_types with e | d <;>
      exact ⟨rfl, rfl, rfl⟩

theorem execute_module_name (s : AgentState) (n : String) :
    (execute_module s n).2.module_name = n := by
  unfold execute_module
  rcases hm : s.modules.lookup n with _ | m
  · rfl
  · dsimp only
    rcases he : m.execute s.config.test_types with e | d <;> rfl

theorem execute_workflow_pres (s : AgentState) (W : List String) :
    (execute_workflow s W).1.config = s.config ∧
    (execute_workflow s W).1.modules = s.modules ∧
    (execute_workflow s W).1.exceptions_collector =
      s.exceptions_collector := by
  induction W generalizing s with
  | nil => simp [execute_workflow]
  | cons name rest ih =>
      simp only [execute_workflow]
      by_cases h : (execute_module s name).2.success = true
      · simp only [h, if_true]
        obtain ⟨i1, i2, i3⟩ := ih (execute_module s name).1
        obtain ⟨j1, j2, j3⟩ := execute_module_pres s name
        exact ⟨i1.trans j1, i2.trans j2, i3.trans j3⟩
      · simp only [h, if_false, Bool.false_eq_true]
        exact execute_module_pres s name

theorem execute_workflow_stop (s : AgentState) (W : List String) :
    (execute_workflow s W).2.length < W.length →
      ((execute_workflow s W).2.getLast?.map (fun r => r.success)) =
        some false := by
  induction W generalizing s with
  | nil => intro hlen; simp [execute_workflow] at hlen
  | cons name rest ih =>
      intro hlen
      simp only [execute_workflow] at hlen ⊢
      by_cases h : (execute_module s name).2.success = true
      · simp only [h, if_true] at hlen ⊢
        have hlt : (execute_workflow
            (execute_module s name).1 rest).2.length < rest.length := by
          simpa using hlen
        have hih := ih (execute_module s name).1 hlt
        cases hq : (execute_workflow (execute_module s name).1 rest).2 with
        | nil =>
            rw [hq] at hih
            simp at hih
        | cons b t =>
            rw [hq] at hih
            rw [List.getLast?_cons_cons]
            exact hih
      · simp only [h, if_false, Bool.false_eq_true] at hlen ⊢
        simp only [Bool.not_eq_true] at h
        simp [h]

theorem execute_workflow_len (s : AgentState) (W : List String) :
    (execute_workflow s W).2.length ≤ W.length := by
  induction W generalizing s with
  | nil => simp [execute_workflow]
  | cons name rest ih =>
      simp only [execute_workflow]
      by_cases h : (execute_module s name).2.success = true
      · simpa [h] using Nat.succ_le_succ (ih _)
      · simp [h]

theorem execute_workflow_mid_success (s : AgentState) (W : List String) :
    ∀ i, i + 1 < (execute_workflow s W).2.length →
      ((execute_workflow s W).2[i]?.map (fun r => r.success)) = some true := by
  induction W generalizing s with
  | nil => intro i hi; simp [execute_workflow] at hi
  | cons name rest ih =>
      intro i hi
      simp only [execute_workflow] at hi ⊢
      by_cases h : (execute_module s name).2.success = true
      · simp only [h, if_true] at hi ⊢
        cases i with
        | zero => simp [h]
        | succ j =>
            simp only [List.getElem?_cons_succ]
            exact ih _ j (by simpa using hi)
      · simp [h] at hi

theorem execute_workflow_names (s : AgentState) (W : List String) :
    ∀ i, i < (execute_workflow s W).2.length →
      ((execute_workflow s W).2[i]?.map (fun r => r.module_name)) = W[i]? := by
  induction W generalizing s with
  | nil => intro i hi; simp [execute_workflow] at hi
  | cons name rest ih =>
      intro i hi
      simp only [execute_workflow] at hi ⊢
      by_cases h : (execute_module s name).2.success = true
      · simp only [h, if_true] at hi ⊢
        cases i with
        | zero => simp [execute_module_name]
        | succ j =>
            simp only [List.getElem?_cons_succ]
            exact ih _ j (by simpa using hi)
      · simp only [h, if_false, Bool.false_eq_true] at hi ⊢
        have h0 : i = 0 := by simp at hi; omega
        subst h0
        simp [execute_module_name]

theorem execute_all_workflows_pres (s : AgentState)
    (ws : List (String × List String)) :
    (execute_all_workflows s ws).1.config = s.config ∧
    (execute_all_workflows s ws).1.modules = s.modules ∧
    (execute_all_workflows s ws).1.exceptions_collector =
      s.exceptions_collector := by
  induction ws generalizing s with
  | nil => simp [execute_all_workflows]
  | cons p rest ih =>
      obtain ⟨n, w⟩ := p
      simp only [execute_all_workflows]
      obtain ⟨i1, i2, i3⟩ := ih (execute_workflow s w).1
      obtain ⟨j1, j2, j3⟩ := execute_workflow_pres s w
      exact ⟨i1.trans j1, i2.trans j2, i3.trans j3⟩

theorem runPreCommitTests_pres (s : AgentState) :
    (runPreCommitTests s).modules = s.modules ∧
    (runPreCommitTests s).results = s.results ∧
    (runPreCommitTests s).config.exception_reporting_enabled =
      s.config.exception_reporting_enabled ∧
    (runPreCommitTests s).config.fail_build_on_exceptions =
      s.config.fail_build_on_exceptions := by
  unfold runPreCommitTests
  rcases hm : s.modules.lookup "test_suite" with _ | m
  · simp
  · dsimp only
    rcases he : m.execute ["unit"] with e | r
    · simp
    · dsimp only
      split <;> simp

theorem runPreCommit_pres (s : AgentState) :
    (runPreCommit s).modules = s.modules ∧
    (runPreCommit s).results = s.results ∧
    (runPreCommit s).config.exception_reporting_enabled =
      s.config.exception_reporting_enabled ∧
    (runPreCommit s).config.fail_build_on_exceptions =
      s.config.fail_build_on_exceptions := by
  unfold runPreCommit
  rcases hm : s.modules.lookup "code_review" with _ | m
  · exact runPreCommitTests_pres s
  · dsimp only
    rcases he : m.execute s.config.test_types with e | r
    · simp
    · dsimp only
      split
      · exact runPreCommitTests_pres s
      · have h := runPreCommitTests_pres
          { s with exceptions_collector := s.exceptions_collector ++
              [{ component := "pre_commit_code_review",
                 error := r.error.getD "Code review failed" }] }
        simpa using h

/-! Step projection lemmas. -/

theorem stepPreCommit_exn (st : St) : (stepPreCommit st).exn = st.exn := by
  unfold stepPreCommit onOk
  rcases hx : st.exn with _ | e
  · dsimp only
    split <;> exact hx
  · dsimp only
    exact hx

theorem stepPreCommit_bc (st : St) : (stepPreCommit st).bc = st.bc := by
  unfold stepPreCommit onOk
  rcases hx : st.exn with _ | e
  · dsimp only
    split <;> rfl
  · rfl

theorem stepPreCommit_flags (st : St) :
    (stepPreCommit st).agent.config.exception_reporting_enabled =
      st.agent.config.exception_reporting_enabled ∧
    (stepPreCommit st).agent.config.fail_build_on_exceptions =
      st.agent.config.fail_build_on_exceptions := by
  unfold stepPreCommit onOk
  rcases hx : st.exn with _ | e
  · dsimp only
    split
    · exact ⟨(runPreCommit_pres st.agent).2.2.1,
             (runPreCommit_pres st.agent).2.2.2⟩
    · exact ⟨rfl, rfl⟩
  · exact ⟨rfl, rfl⟩

theorem stepWorkflows_success (c : BuildCollab) (st : St) :
    (stepWorkflows c st).bc.success = st.bc.success := by
  unfold stepWorkflows onOk
  rcases hx : st.exn with _ | e
  · dsimp only
    rcases hr : c.all_workflows_raise with _ | e <;> rfl
  · rfl

theorem stepWorkflows_exn_none (c : BuildCollab) (st : St)
    (h : st.exn = none) :
    (stepWorkflows c st).exn = c.all_workflows_raise := by
  unfold stepWorkflows onOk
  rw [h]
  dsimp only
  rcases hr : c.all_workflows_raise with _ | e
  · exact h
  · rfl

theorem stepWorkflows_raise (c : BuildCollab) (st : St) (e : String)
    (h : st.exn = none) (hr : c.all_workflows_raise = some e) :
    stepWorkflows c st = { st with exn := some e } := by
  obtain ⟨ag, bc0, ex⟩ := st
  dsimp only at h
  subst h
  unfold stepWorkflows onOk
  dsimp only
  rw [hr]

theorem stepWorkflows_none (c : BuildCollab) (st : St)
    (h : st.exn = none) (hr : c.all_workflows_raise = none) :
    stepWorkflows c st =
      { st with
        agent := (execute_all_workflows st.agent c.workflows).1,
        bc := { st.bc with
                test_results :=
                  ((execute_all_workflows st.agent c.workflows).2.lookup
                    "test_suite").getD [],
                code_review_results :=
                  ((execute_all_workflows st.agent c.workflows).2.lookup
                    "code_review").getD [] } } := by
  obtain ⟨ag, bc0, ex⟩ := st
  dsimp only at h
  subst h
  unfold stepWorkflows onOk
  dsimp only
  rw [hr]

theorem stepFailCheck_skip (st : St) (e : String) (h : st.exn = some e) :
    stepFailCheck st = st := by
  obtain ⟨ag, bc0, ex⟩ := st
  dsimp only at h
  subst h
  unfold stepFailCheck onOk
  rfl

theorem stepFailCheck_none (st : St) (h : st.exn = none) :
    stepFailCheck st =
      { st with bc := { st.bc with success :=
          st.bc.success && !(st.agent.results.any (fun r => !r.success)) } } := by
  obtain ⟨ag, bc0, ex⟩ := st
  dsimp only at h
  subst h
  unfold stepFailCheck onOk
  dsimp only
  split
  · next hany => simp [hany]
  · next hany =>
      simp only [Bool.not_eq_true] at hany
      simp [hany]

theorem stepCopyExceptions_skip (st : St) (e : String) (h : st.exn = some e) :
    stepCopyExceptions st = st := by
  obtain ⟨ag, bc0, ex⟩ := st
  dsimp only at h
  subst h
  unfold stepCopyExceptions onOk
  rfl

theorem stepCopyExceptions_none (st : St) (h : st.exn = none) :
    stepCopyExceptions st =
      { st with bc :=
          { st.bc with exceptions := st.agent.exceptions_collector } } := by
  obtain ⟨ag, bc0, ex⟩ := st
  dsimp only at h
  subst h
  unfold stepCopyExceptions onOk
  rfl

theorem stepReport_skip (st : St) (e : String) (h : st.exn = some e) :
    stepReport st = st := by
  obtain ⟨ag, bc0, ex⟩ := st
  dsimp only at h
  subst h
  unfold stepReport onOk
  rfl

theorem stepReport_none (st : St) (h : st.exn = none) :
    stepReport st =
      { st with bc := { st.bc with success :=
          st.bc.success &&
            !(st.agent.config.exception_reporting_enabled &&
              !st.agent.exceptions_collector.isEmpty &&
              st.agent.config.fail_build_on_exceptions) } } := by
  obtain ⟨ag, bc0, ex⟩ := st
  dsimp only at h
  subst h
  unfold stepReport onOk
  dsimp only
  split
  · next hcond =>
      split
      · next hflag => simp [hcond, hflag]
      · next hflag =>
          simp only [Bool.not_eq_true] at hflag
          simp [hcond, hflag]
  · next hcond =>
      simp only [Bool.not_eq_true, Bool.and_eq_false_iff] at hcond
      rcases hcond with h1 | h2
      · simp [h1]
      · simp [h2]

theorem stepJira_invar (c : BuildCollab) (st : St) :
    (stepJira c st).bc.success = st.bc.success ∧
    (stepJira c st).agent.results = st.agent.results ∧
    (stepJira c st).bc.test_results = st.bc.test_results ∧
    (stepJira c st).bc.code_review_results = st.bc.code_review_results := by
  unfold stepJira onOk
  rcases hx : st.exn with _ | e
  · dsimp only
    split
    · rcases hj : c.jira_integrate with e2 | d <;> simp
    · simp
  · simp

theorem stepConfluence_invar (c : BuildCollab) (st : St) :
    (stepConfluence c st).bc.success = st.bc.success ∧
    (stepConfluence c st).agent.results = st.agent.results ∧
    (stepConfluence c st).bc.test_results = st.bc.test_results ∧
    (stepConfluence c st).bc.code_review_results =
      st.bc.code_review_results := by
  unfold stepConfluence onOk
  rcases hx : st.exn with _ | e
  · dsimp only
    split
    · rcases hp : c.confluence_post with e2 | d
      · simp
      · rcases hq : c.confluence_report with e3 | d2 <;> simp
    · simp
  · simp

theorem stepGithubCommit_invar (c : BuildCollab) (st : St) :
    (stepGithubCommit c st).bc.success = st.bc.success ∧
    (stepGithubCommit c st).agent.results = st.agent.results ∧
    (stepGithubCommit c st).bc.test_results = st.bc.test_results ∧
    (stepGithubCommit c st).bc.code_review_results =
      st.bc.code_review_results := by
  unfold stepGithubCommit onOk
  rcases hx : st.exn with _ | e
  · dsimp only
    split
    · split
      · rcases hg : c.github_commit with e2 | d <;> simp
      · simp
    · simp
  · simp

theorem stepGithubArtifacts_invar (c : BuildCollab) (st : St) :
    (stepGithubArtifacts c st).bc.success = st.bc.success ∧
    (stepGithubArtifacts c st).agent.results = st.agent.results ∧
    (stepGithubArtifacts c st).bc.test_results = st.bc.test_results ∧
    (stepGithubArtifacts c st).bc.code_review_results =
      st.bc.code_review_results := by
  unfold stepGithubArtifacts onOk
  rcases hx : st.exn with _ | e
  · dsimp only
    split
    · rcases hg : c.github_artifacts with e2 | files <;> simp
    · simp
  · simp

theorem stepPostBuild_invar (c : BuildCollab) (st : St) :
    (stepPostBuild c st).bc.success = st.bc.success ∧
    (stepPostBuild c st).agent.results = st.agent.results ∧
    (stepPostBuild c st).bc.test_results = st.bc.test_results ∧
    (stepPostBuild c st).bc.code_review_results =
      st.bc.code_review_results := by
  unfold stepPostBuild onOk
  rcases hx : st.exn with _ | e
  · dsimp only
    split
    · rcases hp : c.post_build_raise with _ | e2 <;> simp
    · simp
  · simp

theorem stepJira_skip (c : BuildCollab) (st : St) (e : String)
    (h : st.exn = some e) : stepJira c st = st := by
  obtain ⟨ag, bc0, ex⟩ := st
  dsimp only at h
  subst h
  unfold stepJira onOk
  rfl

theorem stepConfluence_skip (c : BuildCollab) (st : St) (e : String)
    (h : st.exn = some e) : stepConfluence c st = st := by
  obtain ⟨ag, bc0, ex⟩ := st
  dsimp only at h
  subst h
  unfold stepConfluence onOk
  rfl

theorem stepGithubCommit_skip (c : BuildCollab) (st : St) (e : String)
    (h : st.exn = some e) : stepGithubCommit c st = st := by
  obtain ⟨ag, bc0, ex⟩ := st
  dsimp only at h
  subst h
  unfold stepGithubCommit onOk
  rfl

theorem stepGithubArtifacts_skip (c : BuildCollab) (st : St) (e : String)
    (h : st.exn = some e) : stepGithubArtifacts c st = st := by
  obtain ⟨ag, bc0, ex⟩ := st
  dsimp only at h
  subst h
  unfold stepGithubArtifacts onOk
  rfl

theorem stepPostBuild_skip (c : BuildCollab) (st : St) (e : String)
    (h : st.exn = some e) : stepPostBuild c st = st := by
  obtain ⟨ag, bc0, ex⟩ := st
  dsimp only at h
  subst h
  unfold stepPostBuild onOk
  rfl

theorem stepFailCheck_invar (st : St) :
    (stepFailCheck st).agent = st.agent ∧
    (stepFailCheck st).bc.test_results = st.bc.test_results ∧
    (stepFailCheck st).bc.code_review_results =
      st.bc.code_review_results := by
  unfold stepFailCheck onOk
  rcases hx : st.exn with _ | e
  · dsimp only
    split <;> simp
  · simp

theorem stepCopyExceptions_invar (st : St) :
    (stepCopyExceptions st).agent = st.agent ∧
    (stepCopyExceptions st).bc.test_results = st.bc.test_results ∧
    (stepCopyExceptions st).bc.code_review_results =
      st.bc.code_review_results := by
  unfold stepCopyExceptions onOk
  rcases hx : st.exn with _ | e <;> simp

theorem stepReport_invar (st : St) :
    (stepReport st).agent = st.agent ∧
    (stepReport st).bc.test_results = st.bc.test_results ∧
    (stepReport st).bc.code_review_results =
      st.bc.code_review_results := by
  unfold stepReport onOk
  rcases hx : st.exn with _ | e
  · dsimp only
    split
    · split <;> simp
    · simp
  · simp

theorem buildTryBody_eq (c : BuildCollab) (st : St) :
    buildTryBody c st =
      stepPostBuild c (stepGithubArtifacts c (stepGithubCommit c
        (stepConfluence c (stepJira c (stepReport (stepCopyExceptions
          (stepFailCheck (stepWorkflows c (stepPreCommit st))))))))) := by
  simp [buildTryBody, buildTrySteps, List.foldl_cons, List.foldl_nil]

theorem stepHandler_none (st : St) (h : st.exn = none) :
    stepHandler st = st := by
  unfold stepHandler
  rw [h]

theorem stepHandler_some (st : St) (e : String) (h : st.exn = some e) :
    stepHandler st =
      { agent := { st.agent with exceptions_collector :=
          st.agent.exceptions_collector ++
            [{ component := "build_execution", error := e }] }
        bc := { st.bc with
                success := false
                error := some e
                exceptions := st.agent.exceptions_collector ++
                  [{ component := "build_execution", error := e }] }
        exn := none } := by
  unfold stepHandler
  rw [h]

theorem stepHandler_invar (st : St) :
    (stepHandler st).agent.results = st.agent.results ∧
    (stepHandler st).bc.test_results = st.bc.test_results ∧
    (stepHandler st).bc.code_review_results =
      st.bc.code_review_results := by
  unfold stepHandler
  rcases hx : st.exn with _ | e <;> simp

/-! ### Claim theorems -/

/-- C4: `execute_workflow` invokes the modules of `W` in list order and,
as soon as any module produces a failed result, invokes no subsequent
module and returns the partial list gathered so far: the returned list is
at most as long as `W`, every element but possibly the last is
successful, the i-th result belongs to the i-th name of `W`, and the
returned list is shorter than `W` (i.e. truncated before the end) only
when its last element is a failure. -/
theorem workflow_short_circuits (s : AgentState) (W : List String) :
    (execute_workflow s W).2.length ≤ W.length ∧
    (∀ i, i + 1 < (execute_workflow s W).2.length →
      ((execute_workflow s W).2[i]?.map (fun r => r.success)) = some true) ∧
    (∀ i, i < (execute_workflow s W).2.length →
      ((execute_workflow s W).2[i]?.map (fun r => r.module_name)) = W[i]?) ∧
    ((execute_workflow s W).2.length < W.length →
      ((execute_workflow s W).2.getLast?.map (fun r => r.success)) =
        some false) :=
  ⟨execute_workflow_len s W, execute_workflow_mid_success s W,
   execute_workflow_names s W, execute_workflow_stop s W⟩

/-- Witness for C4 on a concrete agent: workflow `["a", "b", "a"]` with a
raising module `b` stops after two results, the last failed. -/
theorem workflow_short_circuits_w :
    (execute_workflow stA ["a", "b", "a"]).2.length ≤ 3 ∧
    ((execute_workflow stA ["a", "b", "a"]).2[0]?.map (fun r => r.success)) =
      some true ∧
    ((execute_workflow stA ["a", "b", "a"]).2[1]?.map
      (fun r => r.module_name)) = some "b" ∧
    ((execute_workflow stA ["a", "b", "a"]).2.getLast?.map
      (fun r => r.success)) = some false :=
  ⟨(workflow_short_circuits stA ["a", "b", "a"]).1,
   (workflow_short_circuits stA ["a", "b", "a"]).2.1 0 (by decide),
   ((workflow_short_circuits stA ["a", "b", "a"]).2.2.1 1 (by decide)).trans
     rfl,
   (workflow_short_circuits stA ["a", "b", "a"]).2.2.2 (by decide)⟩

/-- C5 counterexample: workflow `["a", "zz"]` over `stA` halts at the
unregistered name `zz` and returns two results, yet the session-long
results list receives only module `a`'s successful result —
`execute_module` returns early at src/core_agent.py line 274, never
reaching the append at line 312, so the not-found failure is never
appended, refuting the claim's "appends that result to the coordinator's
session-long results list". -/
theorem workflow_not_found_cex :
    (execute_workflow stA ["a", "zz"]).2.length = 2 ∧
    (execute_workflow stA ["a", "zz"]).1.results.length = 1 ∧
    ((execute_workflow stA ["a", "zz"]).1.results.all
      (fun r => r.success)) = true :=
  ⟨rfl, rfl, rfl⟩

/-- C5 (amended): when the module at 0-based position `k` of the workflow
(the i-th name with `i = k + 1` counted as the spec does) is not
registered and every earlier module is registered and succeeds, the
runner produces a failed "not found" result at position `k` and halts the
workflow there, returning exactly `k + 1` results — but, contrary to the
claim, the not-found result is NOT appended to the coordinator's
session-long results list: the source returns early (line 274) before
the append (line 312), so only the `k` earlier successful results are
appended. -/
theorem workflow_not_found_halts (s : AgentState) (W : List String)
    (k : Nat) (name : String)
    (hk : W[k]? = some name)
    (hnf : s.modules.lookup name = none)
    (hprev : ∀ j, j < k → ∃ nm m d, W[j]? = some nm ∧
      s.modules.lookup nm = some m ∧
      m.execute s.config.test_types = Except.ok d) :
    (execute_workflow s W).2.length = k + 1 ∧
    (execute_workflow s W).2[k]? =
      some { success := false, module_name := name, execution_time := 0,
             errors := ["Module " ++ quoted name ++ " not found"] } ∧
    (execute_workflow s W).1.results =
      s.results ++ (execute_workflow s W).2.take k := by
  induction k generalizing s W with
  | zero =>
      cases W with
      | nil => simp at hk
      | cons w0 rest =>
          have hw0 : w0 = name := by simpa using hk
          subst hw0
          have hmod := execute_module_notfound s w0 hnf
          refine ⟨?_, ?_, ?_⟩
          · simp only [execute_workflow]
            rw [hmod]
            simp
          · simp only [execute_workflow]
            rw [hmod]
            simp
          · simp only [execute_workflow]
            rw [hmod]
            simp
  | succ k ih =>
      cases W with
      | nil => simp at hk
      | cons w0 rest =>
          have hk' : rest[k]? = some name := by simpa using hk
          obtain ⟨nm, m, d, hnm, hlm, hexec⟩ := hprev 0 (Nat.succ_pos k)
          have hnm0 : w0 = nm := by simpa using hnm
          subst hnm0
          have hem2 : (execute_module s w0).2.success = true := by
            unfold execute_module
            rw [hlm]
            dsimp only
            rw [hexec]
          have hpres := execute_module_pres s w0
          have hnf' : (execute_module s w0).1.modules.lookup name = none := by
            rw [hpres.2.1]
            exact hnf
          have hprev' : ∀ j, j < k → ∃ nm' m' d',
              rest[j]? = some nm' ∧
              (execute_module s w0).1.modules.lookup nm' = some m' ∧
              m'.execute (execute_module s w0).1.config.test_types =
                Except.ok d' := by
            intro j hj
            obtain ⟨nm', m', d', h1, h2, h3⟩ :=
              hprev (j + 1) (Nat.succ_lt_succ hj)
            refine ⟨nm', m', d', by simpa using h1, ?_, ?_⟩
            · rw [hpres.2.1]
              exact h2
            · rw [hpres.1]
              exact h3
          have hih := ih (execute_module s w0).1 rest hk' hnf' hprev'
          refine ⟨?_, ?_, ?_⟩
          · simp only [execute_workflow]
            simp [hem2, hih.1]
          · simp only [execute_workflow]
            simp only [hem2, if_true]
            simpa using hih.2.1
          · simp only [execute_workflow]
            simp only [hem2, if_true]
            rw [hih.2.2, execute_module_found_fst s w0 m hlm]
            simp

/-- Witness for the amended C5: in workflow `["a", "zz"]` over `stA` the
second name is unregistered; the run returns two results, the second a
"not found" failure, and the session list gains only the first result. -/
theorem workflow_not_found_halts_w :
    (execute_workflow stA ["a", "zz"]).2.length = 2 ∧
    (execute_workflow stA ["a", "zz"]).2[1]? =
      some { success := false, module_name := "zz", execution_time := 0,
             errors := ["Module " ++ quoted "zz" ++ " not found"] } ∧
    (execute_workflow stA ["a", "zz"]).1.results =
      stA.results ++ (execute_workflow stA ["a", "zz"]).2.take 1 := by
  have hp : ∀ j, j < 1 → ∃ nm m d,
      (["a", "zz"] : List String)[j]? = some nm ∧
      stA.modules.lookup nm = some m ∧
      m.execute stA.config.test_types = Except.ok d := by
    intro j hj
    have hj0 : j = 0 := by omega
    subst hj0
    exact ⟨"a", modOk, {}, rfl, rfl, rfl⟩
  exact ⟨(workflow_not_found_halts stA ["a", "zz"] 1 "zz" rfl rfl hp).1,
         (workflow_not_found_halts stA ["a", "zz"] 1 "zz" rfl rfl hp).2.1,
         (workflow_not_found_halts stA ["a", "zz"] 1 "zz" rfl rfl hp).2.2⟩

/-- C6: when a registered module's `execute` raises, `execute_module`
swallows the exception and returns a failed result carrying the elapsed
time and the string representation of the exception; the only state effect
is appending that result to the session results list. -/
theorem module_exception_swallowed (s : AgentState) (n : String)
    (m : AgentModule) (e : String)
    (hm : s.modules.lookup n = some m)
    (he : m.execute s.config.test_types = Except.error e) :
    (execute_module s n).2 =
      { success := false, module_name := n, execution_time := m.elapsed,
        errors := ["Module execution failed: " ++ e] } ∧
    (execute_module s n).1 =
      { s with results := s.results ++ [(execute_module s n).2] } := by
  constructor
  · unfold execute_module
    rw [hm]
    dsimp only
    rw [he]
  · exact execute_module_found_fst s n m hm

/-- Witness for C6: the raising module `b` of `stA`. -/
theorem module_exception_swallowed_w :
    (execute_module stA "b").2 =
      { success := false, module_name := "b", execution_time := 2,
        errors := ["Module execution failed: boom"] } ∧
    (execute_module stA "b").1 =
      { stA with results := stA.results ++ [(execute_module stA "b").2] } :=
  module_exception_swallowed stA "b" modRaise "boom" rfl rfl

/-- C7: `register_module` inserts the module under the given name
(overwriting any prior entry) exactly when `validate_config()` is true;
on a false validation the whole agent state is unchanged, and the call
never raises (it is a total function). -/
theorem register_module_gated (s : AgentState) (n : String)
    (m : AgentModule) :
    (∀ n', (register_module s n m).modules.lookup n' =
      if m.validate_config && (n' == n) then some m
      else s.modules.lookup n') ∧
    (m.validate_config = false → register_module s n m = s) := by
  constructor
  · intro n'
    unfold register_module
    by_cases hv : m.validate_config = true
    · by_cases hn : n' = n <;> simp [hv, hn, lookup_dictInsert]
    · simp [hv]
  · intro hv
    unfold register_module
    simp [hv]

/-- Witness for C7: registering a module with failing validation leaves
the registry unchanged; registering a healthy module makes it retrievable. -/
theorem register_module_gated_w :
    register_module stA "c" modBadConfig = stA ∧
    (register_module stA "c" modOk).modules.lookup "c" = some modOk := by
  constructor
  · exact (register_module_gated stA "c" modBadConfig).2 rfl
  · have h := (register_module_gated stA "c" modOk).1 "c"
    simpa using h

/-- C10: `get_execution_summary` reports the session results list's length
as `total_modules`, successful and failed counts summing to the total,
and a zero success rate for an empty list (the division is guarded). -/
theorem execution_summary_safe (s : AgentState) :
    (get_execution_summary s).total_modules = s.results.length ∧
    (get_execution_summary s).successful_modules +
      (get_execution_summary s).failed_modules = s.results.length ∧
    (s.results = [] → (get_execution_summary s).success_rate = 0) := by
  refine ⟨rfl, ?_, ?_⟩
  · unfold get_execution_summary
    dsimp only
    exact Nat.add_sub_cancel' (List.length_filter_le _ _)
  · intro h
    unfold get_execution_summary
    simp [h]

/-- C3: `execute_comprehensive_build` never raises — it is a total function
returning a `BuildContext` — and any exception escaping the inner phases
of its `try` body is caught once at the outermost boundary: the build is
failed, the error string is stored, and a `build_execution` exception
record is appended to the collector (and, via the aliasing of
`build_context['exceptions']`, visible in the returned context). -/
theorem build_boundary_catches (c : BuildCollab) (s : AgentState)
    (bid : String) (e : String)
    (h : (buildTryBody c (initSt s bid)).exn = some e) :
    (execute_comprehensive_build c s bid).2.success = false ∧
    (execute_comprehensive_build c s bid).2.error = some e ∧
    (execute_comprehensive_build c s bid).2.exceptions =
      (buildTryBody c (initSt s bid)).agent.exceptions_collector ++
        [{ component := "build_execution", error := e }] ∧
    (execute_comprehensive_build c s bid).1.exceptions_collector =
      (buildTryBody c (initSt s bid)).agent.exceptions_collector ++
        [{ component := "build_execution", error := e }] := by
  unfold execute_comprehensive_build
  dsimp only
  rw [stepHandler_some _ e h]
  exact ⟨rfl, rfl, rfl, rfl⟩

/-- Witness for C3: with the shipped collaborator behaviour (the missing
`execute_all_workflows` raising an `AttributeError`), the returned context
is failed and carries the error. -/
theorem build_boundary_catches_w :
    (execute_comprehensive_build cAttrErr stEmpty "b").2.success = false ∧
    (execute_comprehensive_build cAttrErr stEmpty "b").2.error =
      some "AttributeError: no attribute" := by
  have h : (buildTryBody cAttrErr (initSt stEmpty "b")).exn =
      some "AttributeError: no attribute" := rfl
  exact ⟨(build_boundary_catches cAttrErr stEmpty "b" _ h).1,
         (build_boundary_catches cAttrErr stEmpty "b" _ h).2.1⟩

/-- C2 (spec-modelled): after the pre-commit phase the coordinator calls
`execute_all_workflows` — modelled from the spec, the method being absent
from src/ — which runs every configured workflow through the Workflow
Runner; the coordinator stores the `test_suite` sub-result into
`BuildContext.test_results` and the `code_review` sub-result into
`BuildContext.code_review_results`, and the returned agent's session
results list is exactly as the workflow phase left it. -/
theorem build_stores_workflow_results (c : BuildCollab) (s : AgentState)
    (bid : String) (h : c.all_workflows_raise = none) :
    (execute_comprehensive_build c s bid).2.test_results =
      ((execute_all_workflows (stepPreCommit (initSt s bid)).agent
        c.workflows).2.lookup "test_suite").getD [] ∧
    (execute_comprehensive_build c s bid).2.code_review_results =
      ((execute_all_workflows (stepPreCommit (initSt s bid)).agent
        c.workflows).2.lookup "code_review").getD [] ∧
    (execute_comprehensive_build c s bid).1.results =
      (execute_all_workflows (stepPreCommit (initSt s bid)).agent
        c.workflows).1.results := by
  have hA : (stepPreCommit (initSt s bid)).exn = none := by
    rw [stepPreCommit_exn]
    rfl
  have h2 := stepWorkflows_none c (stepPreCommit (initSt s bid)) hA h
  refine ⟨?_, ?_, ?_⟩
  · unfold execute_comprehensive_build
    dsimp only
    rw [buildTryBody_eq, (stepHandler_invar _).2.1,
        (stepPostBuild_invar c _).2.2.1,
        (stepGithubArtifacts_invar c _).2.2.1,
        (stepGithubCommit_invar c _).2.2.1,
        (stepConfluence_invar c _).2.2.1,
        (stepJira_invar c _).2.2.1, (stepReport_invar _).2.1,
        (stepCopyExceptions_invar _).2.1, (stepFailCheck_invar _).2.1, h2]
  · unfold execute_comprehensive_build
    dsimp only
    rw [buildTryBody_eq, (stepHandler_invar _).2.2,
        (stepPostBuild_invar c _).2.2.2,
        (stepGithubArtifacts_invar c _).2.2.2,
        (stepGithubCommit_invar c _).2.2.2,
        (stepConfluence_invar c _).2.2.2,
        (stepJira_invar c _).2.2.2, (stepReport_invar _).2.2,
        (stepCopyExceptions_invar _).2.2, (stepFailCheck_invar _).2.2, h2]
  · unfold execute_comprehensive_build
    dsimp only
    rw [buildTryBody_eq, (stepHandler_invar _).1,
        (stepPostBuild_invar c _).2.1,
        (stepGithubArtifacts_invar c _).2.1,
        (stepGithubCommit_invar c _).2.1,
        (stepConfluence_invar c _).2.1,
        (stepJira_invar c _).2.1, (stepReport_invar _).1,
        (stepCopyExceptions_invar _).1, (stepFailCheck_invar _).1, h2]

/-- Witness for C2: a build over `stA` running workflows `test_suite` and
`code_review`. -/
theorem build_stores_workflow_results_w :
    (execute_comprehensive_build cWf stA "bw").2.test_results =
      ((execute_all_workflows (stepPreCommit (initSt stA "bw")).agent
        cWf.workflows).2.lookup "test_suite").getD [] ∧
    (execute_comprehensive_build cWf stA "bw").1.results =
      (execute_all_workflows (stepPreCommit (initSt stA "bw")).agent
        cWf.workflows).1.results :=
  ⟨(build_stores_workflow_results cWf stA "bw" rfl).1,
   (build_stores_workflow_results cWf stA "bw" rfl).2.2⟩

theorem trySteps_skip (c : BuildCollab) (ag : AgentState)
    (bc0 : BuildContext) (e : String) :
    stepPostBuild c (stepGithubArtifacts c (stepGithubCommit c
      (stepConfluence c (stepJira c (stepReport (stepCopyExceptions
        (stepFailCheck (⟨ag, bc0, some e⟩ : St)))))))) =
      (⟨ag, bc0, some e⟩ : St) := by
  rw [stepFailCheck_skip _ e rfl, stepCopyExceptions_skip _ e rfl,
      stepReport_skip _ e rfl, stepJira_skip c _ e rfl,
      stepConfluence_skip c _ e rfl, stepGithubCommit_skip c _ e rfl,
      stepGithubArtifacts_skip c _ e rfl, stepPostBuild_skip c _ e rfl]

/-- C1 counterexample: with exception reporting disabled, a build whose
pre-commit phase collects an exception record finishes with non-empty
`exceptions` and `fail_build_on_exceptions = true`, yet
`BuildContext.success` is `true` — the fail-on-exceptions policy at
src/core_agent.py lines 396-406 only runs inside the
`exception_reporting_enabled` guard, refuting the claim that exceptions
plus the flag always force failure. -/
theorem build_success_iff_cex :
    sC1.config.fail_build_on_exceptions = true ∧
    (execute_comprehensive_build {} sC1 "b").2.exceptions ≠ [] ∧
    (execute_comprehensive_build {} sC1 "b").2.success = true := by
  refine ⟨rfl, ?_, rfl⟩
  decide

/-- C1 (amended): `BuildContext.success` is true iff no exception escaped
the try body, no result in the session results list is failed, and it is
not the case that exception reporting is enabled and
`fail_build_on_exceptions` is set and the exception collector was
non-empty at the reporting step (i.e. right after the pre-commit phase;
records appended later, e.g. by post-build actions, do not retroactively
fail the build even though they appear in the returned `exceptions`). -/
theorem build_success_iff (c : BuildCollab) (s : AgentState)
    (bid : String) :
    (execute_comprehensive_build c s bid).2.success = true ↔
      ((buildTryBody c (initSt s bid)).exn = none ∧
       ((execute_comprehensive_build c s bid).1.results.any
          (fun r => !r.success)) = false ∧
       ¬(s.config.exception_reporting_enabled = true ∧
         s.config.fail_build_on_exceptions = true ∧
         (stepPreCommit (initSt s bid)).agent.exceptions_collector ≠ [])) := by
  have hA : (stepPreCommit (initSt s bid)).exn = none := by
    rw [stepPreCommit_exn]
    rfl
  rcases hr : c.all_workflows_raise with _ | e
  · have h2 := stepWorkflows_none c (stepPreCommit (initSt s bid)) hA hr
    have hst2exn :
        (stepWorkflows c (stepPreCommit (initSt s bid))).exn = none := by
      rw [h2]
      exact hA
    have h3 := stepFailCheck_none _ hst2exn
    have hst3exn : (stepFailCheck (stepWorkflows c
        (stepPreCommit (initSt s bid)))).exn = none := by
      rw [h3]
      exact hst2exn
    have h4 := stepCopyExceptions_none _ hst3exn
    have hst4exn : (stepCopyExceptions (stepFailCheck (stepWorkflows c
        (stepPreCommit (initSt s bid))))).exn = none := by
      rw [h4]
      exact hst3exn
    have h5 := stepReport_none _ hst4exn
    have hst2agent :
        (stepWorkflows c (stepPreCommit (initSt s bid))).agent =
          (execute_all_workflows (stepPreCommit (initSt s bid)).agent
            c.workflows).1 := by
      rw [h2]
    have hst2succ :
        (stepWorkflows c (stepPreCommit (initSt s bid))).bc.success =
          true := by
      rw [stepWorkflows_success, stepPreCommit_bc]
      rfl
    have hst2rep :
        (stepWorkflows c (stepPreCommit
          (initSt s bid))).agent.config.exception_reporting_enabled =
          s.config.exception_reporting_enabled := by
      rw [hst2agent, (execute_all_workflows_pres _ _).1,
          (stepPreCommit_flags _).1]
      rfl
    have hst2flag :
        (stepWorkflows c (stepPreCommit
          (initSt s bid))).agent.config.fail_build_on_exceptions =
          s.config.fail_build_on_exceptions := by
      rw [hst2agent, (execute_all_workflows_pres _ _).1,
          (stepPreCommit_flags _).2]
      rfl
    have hst2coll :
        (stepWorkflows c (stepPreCommit
          (initSt s bid))).agent.exceptions_collector =
          (stepPreCommit (initSt s bid)).agent.exceptions_collector := by
      rw [hst2agent, (execute_all_workflows_pres _ _).2.2]
    have hBsucc : (stepReport (stepCopyExceptions (stepFailCheck
        (stepWorkflows c (stepPreCommit (initSt s bid)))))).bc.success =
        (!((execute_all_workflows (stepPreCommit (initSt s bid)).agent
            c.workflows).1.results.any (fun r => !r.success)) &&
         !(s.config.exception_reporting_enabled &&
           !(stepPreCommit
              (initSt s bid)).agent.exceptions_collector.isEmpty &&
           s.config.fail_build_on_exceptions)) := by
      rw [h5]
      dsimp only
      rw [h4]
      dsimp only
      rw [h3]
      dsimp only
      rw [hst2succ, hst2rep, hst2flag, hst2coll, hst2agent]
      simp only [Bool.true_and]
    have htailsucc : (stepPostBuild c (stepGithubArtifacts c
        (stepGithubCommit c (stepConfluence c (stepJira c (stepReport
          (stepCopyExceptions (stepFailCheck (stepWorkflows c
            (stepPreCommit (initSt s bid))))))))))).bc.success =
        (stepReport (stepCopyExceptions (stepFailCheck (stepWorkflows c
          (stepPreCommit (initSt s bid)))))).bc.success := by
      rw [(stepPostBuild_invar c _).1, (stepGithubArtifacts_invar c _).1,
          (stepGithubCommit_invar c _).1, (stepConfluence_invar c _).1,
          (stepJira_invar c _).1]
    have htailres : (stepPostBuild c (stepGithubArtifacts c
        (stepGithubCommit c (stepConfluence c (stepJira c (stepReport
          (stepCopyExceptions (stepFailCheck (stepWorkflows c
            (stepPreCommit (initSt s bid))))))))))).agent.results =
        (execute_all_workflows (stepPreCommit (initSt s bid)).agent
          c.workflows).1.results := by
      rw [(stepPostBuild_invar c _).2.1, (stepGithubArtifacts_invar c _).2.1,
          (stepGithubCommit_invar c _).2.1, (stepConfluence_invar c _).2.1,
          (stepJira_invar c _).2.1, (stepReport_invar _).1,
          (stepCopyExceptions_invar _).1, (stepFailCheck_invar _).1,
          hst2agent]
    rcases hT : (stepPostBuild c (stepGithubArtifacts c
        (stepGithubCommit c (stepConfluence c (stepJira c (stepReport
          (stepCopyExceptions (stepFailCheck (stepWorkflows c
            (stepPreCommit (initSt s bid))))))))))).exn with _ | e2
    · have hH := stepHandler_none _ hT
      have hLsucc : (execute_comprehensive_build c s bid).2.success =
          (stepReport (stepCopyExceptions (stepFailCheck (stepWorkflows c
            (stepPreCommit (initSt s bid)))))).bc.success := by
        unfold execute_comprehensive_build
        dsimp only
        rw [buildTryBody_eq, hH, htailsucc]
      have hLres : (execute_comprehensive_build c s bid).1.results =
          (execute_all_workflows (stepPreCommit (initSt s bid)).agent
            c.workflows).1.results := by
        unfold execute_comprehensive_build
        dsimp only
        rw [buildTryBody_eq, hH, htailres]
      have hRexn : (buildTryBody c (initSt s bid)).exn = none := by
        rw [buildTryBody_eq]
        exact hT
      rw [hLsucc, hLres, hBsucc, hRexn]
      cases hrep : s.config.exception_reporting_enabled <;>
        cases hflag : s.config.fail_build_on_exceptions <;>
        cases hcoll : (stepPreCommit
          (initSt s bid)).agent.exceptions_collector.isEmpty <;>
        simp_all [List.isEmpty_iff, Bool.and_eq_true, Bool.not_eq_true']
    · have hH := stepHandler_some _ e2 hT
      have hLsucc : (execute_comprehensive_build c s bid).2.success =
          false := by
        unfold execute_comprehensive_build
        dsimp only
        rw [buildTryBody_eq, hH]
      have hRexn : (buildTryBody c (initSt s bid)).exn = some e2 := by
        rw [buildTryBody_eq]
        exact hT
      rw [hLsucc, hRexn]
      simp
  · have h2 := stepWorkflows_raise c (stepPreCommit (initSt s bid)) e hA hr
    have hskip : buildTryBody c (initSt s bid) =
        { stepPreCommit (initSt s bid) with exn := some e } := by
      rw [buildTryBody_eq, h2]
      exact trySteps_skip c _ _ e
    have hLsucc : (execute_comprehensive_build c s bid).2.success =
        false := by
      unfold execute_comprehensive_build
      dsimp only
      rw [hskip, stepHandler_some _ e rfl]
    rw [hLsucc, hskip]
    simp

/-- C9: within one `execute_comprehensive_build` call the context's
`success` flag starts `true` and transitions monotonically — every
context-mutating step of the call (the ten try-body steps and the
exception boundary) maps a failed context to a failed context, so once any
step sets `success` to false no later step sets it back to true. -/
theorem build_success_monotone (c : BuildCollab) :
    (∀ s bid, (initSt s bid).bc.success = true) ∧
    (∀ f, f ∈ buildAllSteps c → ∀ st : St, st.bc.success = false →
      (f st).bc.success = false) := by
  constructor
  · intro s bid
    rfl
  · intro f hf st hsucc
    have hl : buildAllSteps c =
        [stepPreCommit, stepWorkflows c, stepFailCheck, stepCopyExceptions,
         stepReport, stepJira c, stepConfluence c, stepGithubCommit c,
         stepGithubArtifacts c, stepPostBuild c, stepHandler] := rfl
    rw [hl] at hf
    fin_cases hf
    · rw [stepPreCommit_bc]
      exact hsucc
    · rw [stepWorkflows_success]
      exact hsucc
    · rcases hx : st.exn with _ | e
      · rw [stepFailCheck_none st hx]
        simp [hsucc]
      · rw [stepFailCheck_skip st e hx]
        exact hsucc
    · rcases hx : st.exn with _ | e
      · rw [stepCopyExceptions_none st hx]
        exact hsucc
      · rw [stepCopyExceptions_skip st e hx]
        exact hsucc
    · rcases hx : st.exn with _ | e
      · rw [stepReport_none st hx]
        simp [hsucc]
      · rw [stepReport_skip st e hx]
        exact hsucc
    · rw [(stepJira_invar c st).1]
      exact hsucc
    · rw [(stepConfluence_invar c st).1]
      exact hsucc
    · rw [(stepGithubCommit_invar c st).1]
      exact hsucc
    · rw [(stepGithubArtifacts_invar c st).1]
      exact hsucc
    · rw [(stepPostBuild_invar c st).1]
      exact hsucc
    · rcases hx : st.exn with _ | e
      · rw [stepHandler_none st hx]
        exact hsucc
      · rw [stepHandler_some st e hx]

/-- Witness for C9: the initial context is successful, and the
failure-check step keeps an already-failed context failed. -/
theorem build_success_monotone_w :
    (initSt stEmpty "b").bc.success = true ∧
    (stepFailCheck stFalse).bc.success = false :=
  ⟨(build_success_monotone {}).1 stEmpty "b",
   (build_success_monotone {}).2 stepFailCheck
     (by simp [buildAllSteps, buildTrySteps]) stFalse rfl⟩

theorem runPreCommitTests_test_types (s : AgentState) (m : AgentModule)
    (hm : s.modules.lookup "test_suite" = some m) :
    ((∃ d, m.execute ["unit"] = Except.ok d) →
      (runPreCommitTests s).config.test_types = s.config.test_types) ∧
    (∀ e, m.execute ["unit"] = Except.error e →
      (runPreCommitTests s).config.test_types = ["unit"]) := by
  constructor
  · rintro ⟨d, hd⟩
    unfold runPreCommitTests
    rw [hm]
    dsimp only
    rw [hd]
    dsimp only
    by_cases hs : d.success.getD true = true <;> simp [hs]
  · intro e he
    unfold runPreCommitTests
    rw [hm]
    dsimp only
    rw [he]

/-- C8 counterexample: a build whose pre-commit phase runs a test-suite
module whose `execute` raises.  The restore on src/core_agent.py line 508
is skipped by the exception, so after the build the configured test types
are the narrowed `["unit"]`, not the original seven-entry default —
refuting the claim that the narrowing is reverted whether the module's
`execute` returns or raises. -/
theorem pre_commit_restore_cex :
    stC8.config.test_types ≠ ["unit"] ∧
    (execute_comprehensive_build {} stC8 "b1").1.config.test_types =
      ["unit"] := by
  constructor
  · decide
  · rfl

/-- C8 (amended): within the pre-commit phase the configured test types
are narrowed to `["unit"]` around the test-suite invocation and restored
whenever the module's `execute` returns normally; when it raises, the
restore (src/core_agent.py line 508) is skipped by the exception and the
narrowed `["unit"]` persists after the phase.  Stated for phases whose
code-review step does not itself raise, so the test-suite step is
reached. -/
theorem pre_commit_test_types (s : AgentState) (m : AgentModule)
    (hm : s.modules.lookup "test_suite" = some m)
    (hcr : ∀ mc, s.modules.lookup "code_review" = some mc →
      ∃ r, mc.execute s.config.test_types = Except.ok r) :
    ((∃ d, m.execute ["unit"] = Except.ok d) →
      (runPreCommit s).config.test_types = s.config.test_types) ∧
    (∀ e, m.execute ["unit"] = Except.error e →
      (runPreCommit s).config.test_types = ["unit"]) := by
  have main : ∀ s' : AgentState, s'.modules = s.modules →
      s'.config = s.config →
      ((∃ d, m.execute ["unit"] = Except.ok d) →
        (runPreCommitTests s').config.test_types = s.config.test_types) ∧
      (∀ e, m.execute ["unit"] = Except.error e →
        (runPreCommitTests s').config.test_types = ["unit"]) := by
    intro s' hmodules hcfg
    have hm' : s'.modules.lookup "test_suite" = some m := by
      rw [hmodules]; exact hm
    have h := runPreCommitTests_test_types s' m hm'
    rw [hcfg] at h
    exact h
  unfold runPreCommit
  rcases hcrm : s.modules.lookup "code_review" with _ | mc
  · exact main s rfl rfl
  · obtain ⟨r, hr⟩ := hcr mc hcrm
    dsimp only
    rw [hr]
    dsimp only
    by_cases hs : r.success.getD true = true
    · simp only [hs, if_true]
      exact main s rfl rfl
    · simp only [hs, if_false, Bool.false_eq_true]
      exact main _ rfl rfl

/-- Witness for the amended C8: a returning test-suite module leaves the
test types restored; a raising one leaves them narrowed to `["unit"]`. -/
theorem pre_commit_test_types_w :
    (runPreCommit stTSok).config.test_types =
      ({} : AgentConfig).test_types ∧
    (runPreCommit stC8).config.test_types = ["unit"] := by
  refine ⟨(pre_commit_test_types stTSok modOk rfl ?_).1 ⟨{}, rfl⟩,
          (pre_commit_test_types stC8 modRaise rfl ?_).2 "boom" rfl⟩
  · intro mc h
    simp [stTSok, List.lookup] at h
  · intro mc h
    simp [stC8, List.lookup] at h

/-- Witness for C10 at the empty session. -/
theorem execution_summary_safe_w :
    (get_execution_summary stEmpty).total_modules = 0 ∧
    (get_execution_summary stEmpty).successful_modules +
      (get_execution_summary stEmpty).failed_modules = 0 ∧
    (get_execution_summary stEmpty).success_rate = 0 :=
  ⟨(execution_summary_safe stEmpty).1, (execution_summary_safe stEmpty).2.1,
   (execution_summary_safe stEmpty).2.2 rfl⟩

end Jeeves
